import Mathlib

/-!
Shallow embedding of `adws/adw_triggers/trigger_webhook.py`, the GitHub
webhook trigger of the ADW (AI Developer Workflow) automation layer.

Pure fragments — the three ADW-id recovery regexes, the event
classification, the state-continuation guard and the dispatch decision —
are translated directly from the Python source.  Side effects are made
explicit: the launched background process and the persisted state writes
become event lists in the handler result, and the external
collaborators (`extract_repo_path`, `fetch_issue_comments`,
`make_adw_id`, and the classification helper `extract_adw_info` from
`adw_modules`) become explicit parameters or, where the module source is
unavailable, definitions modelled from the specification.
-/

abbrev Chars := List Char

/-- Character class `[a-f0-9]` used by all three ADW-id regexes. -/
def isHex (c : Char) : Bool :=
  ('a' ≤ c && c ≤ 'f') || ('0' ≤ c && c ≤ '9')

/-- Python `\s` (ASCII range), for the `\s*` occurring in the regexes. -/
def isSpaceB (c : Char) : Bool :=
  c = ' ' || c = '\t' || c = '\n' || c = '\r' || c = '\x0b' || c = '\x0c'

/-- Take exactly `n` characters satisfying `p`: the fixed-count class
repetition `[a-f0-9]{n}`.  Returns the taken characters and the rest. -/
def takeExact (p : Char → Bool) : Nat → Chars → Option (Chars × Chars)
  | 0, cs => some ([], cs)
  | _ + 1, [] => none
  | n + 1, c :: cs =>
    if p c then
      match takeExact p n cs with
      | some (g, r) => some (c :: g, r)
      | none => none
    else none

/-- Consume one expected literal character. -/
def expectChar (c : Char) : Chars → Option Chars
  | [] => none
  | x :: xs => if x = c then some xs else none

/-- Consume an expected literal string. -/
def dropLit : Chars → Chars → Option Chars
  | [], cs => some cs
  | _ :: _, [] => none
  | l :: ls, c :: cs => if c = l then dropLit ls cs else none

/-- Greedy `\s*`.  In every regex below the character required after the
`\s*` is never itself whitespace, so greedy matching without backtracking
agrees with the regex engine. -/
def dropSpaces : Chars → Chars
  | [] => []
  | c :: cs => if isSpaceB c then dropSpaces cs else c :: cs

/-- The capture group `([a-f0-9]{8}(?:-[a-f0-9]{4}){3}-[a-f0-9]{12})`
shared verbatim by the three patterns of `find_latest_adw_id_in_issue`.
Returns the captured text and the remaining input. -/
def matchUUID (cs : Chars) : Option (Chars × Chars) :=
  match takeExact isHex 8 cs with
  | none => none
  | some (a, r1) =>
    match expectChar '-' r1 with
    | none => none
    | some r2 =>
      match takeExact isHex 4 r2 with
      | none => none
      | some (b, r3) =>
        match expectChar '-' r3 with
        | none => none
        | some r4 =>
          match takeExact isHex 4 r4 with
          | none => none
          | some (c, r5) =>
            match expectChar '-' r5 with
            | none => none
            | some r6 =>
              match takeExact isHex 4 r6 with
              | none => none
              | some (d, r7) =>
                match expectChar '-' r7 with
                | none => none
                | some r8 =>
                  match takeExact isHex 12 r8 with
                  | none => none
                  | some (e, r9) =>
                    some (a ++ '-' :: b ++ '-' :: c ++ '-' :: d ++ '-' :: e, r9)

/-- Pattern `json_pattern` anchored at one position:
`"adw_id":\s*"([a-f0-9]{8}(?:-[a-f0-9]{4}){3}-[a-f0-9]{12})"`. -/
def matchJsonAt (cs : Chars) : Option Chars :=
  match dropLit ("\"adw_id\":".toList) cs with
  | none => none
  | some r1 =>
    match expectChar '"' (dropSpaces r1) with
    | none => none
    | some r2 =>
      match matchUUID r2 with
      | none => none
      | some (u, r3) =>
        match expectChar '"' r3 with
        | none => none
        | some _ => some u

/-- Pattern `explicit_pattern` anchored at one position:
`adw_id:\s*([a-f0-9]{8}(?:-[a-f0-9]{4}){3}-[a-f0-9]{12})`. -/
def matchExplicitAt (cs : Chars) : Option Chars :=
  match dropLit ("adw_id:".toList) cs with
  | none => none
  | some r1 =>
    match matchUUID (dropSpaces r1) with
    | none => none
    | some (u, _) => some u

/-- The alternatives of `(?:ops|sdlc_planner|sdlc_implementor|adw_classifier)`. -/
def roleAlternatives : List Chars :=
  ["ops".toList, "sdlc_planner".toList, "sdlc_implementor".toList,
   "adw_classifier".toList]

/-- Regex alternation followed by `:`, with backtracking across the
alternatives exactly as the engine performs it. -/
def matchRoleColon : List Chars → Chars → Bool
  | [], _ => false
  | l :: ls, cs =>
    match dropLit l cs with
    | some r => (expectChar ':' r).isSome || matchRoleColon ls cs
    | none => matchRoleColon ls cs

/-- Pattern `prefix_pattern` anchored at one position:
`([a-f0-9]{8}(?:-[a-f0-9]{4}){3}-[a-f0-9]{12})_(?:ops|sdlc_planner|sdlc_implementor|adw_classifier):`. -/
def matchPrefixAt (cs : Chars) : Option Chars :=
  match matchUUID cs with
  | none => none
  | some (u, r1) =>
    match expectChar '_' r1 with
    | none => none
    | some r2 => if matchRoleColon roleAlternatives r2 then some u else none

/-- Search as in `re.search`: try the anchored matcher at every position
from the left; the leftmost successful position wins.  For the three
deterministic patterns above this is exactly what the regex engine does. -/
def search (m : Chars → Option Chars) : Chars → Option Chars
  | [] => m []
  | c :: cs =>
    match m (c :: cs) with
    | some u => some u
    | none => search m cs

/-- One comment body against the three patterns in priority order: the
inner `for pattern in [json_pattern, explicit_pattern, prefix_pattern]`
loop of `find_latest_adw_id_in_issue`. -/
def findAdwIdInBody (body : Chars) : Option Chars :=
  match search matchJsonAt body with
  | some u => some u
  | none =>
    match search matchExplicitAt body with
    | some u => some u
    | none => search matchPrefixAt body

/-- A GitHub comment as the scan sees it; `body = none` models a JSON
object without a "body" key, read by `comment.get("body", "")`. -/
structure Comment where
  body : Option String
deriving DecidableEq

/-- Read the body as `comment.get("body", "")` does. -/
def commentBodyChars (c : Comment) : Chars := (c.body.getD "").toList

/-- Outcome of `fetch_issue_comments(repo_path, issue_number)` (GitHub
integration, out of scope): either the comment list, newest first per its
contract, or a raised exception. -/
inductive FetchOutcome
  | ok (comments : List Comment)
  | raised
deriving DecidableEq

/-- The `for comment in comments:` loop of `find_latest_adw_id_in_issue`:
return the id found in the first (newest) comment any pattern matches. -/
def scanComments : List Comment → Option String
  | [] => none
  | c :: cs =>
    match findAdwIdInBody (commentBodyChars c) with
    | some u => some (String.mk u)
    | none => scanComments cs

/-- Function `find_latest_adw_id_in_issue`.  The repository-path lookup and the
comment fetch are supplied as parameters; the surrounding `try/except`
turns a raised fetch into `None`, a missing repository path returns
`None`, and an empty (falsy) comment list returns `None` before the scan. -/
def find_latest_adw_id_in_issue (repoPath : Option String)
    (fetch : FetchOutcome) : Option String :=
  match repoPath with
  | none => none
  | some _ =>
    match fetch with
    | .raised => none
    | .ok comments =>
      if comments.isEmpty then none
      else scanComments comments

/-! ## The webhook handler -/

/-- Python truthiness of `issue_number` (an optional integer: `None` and
`0` are falsy). -/
def truthyN : Option Nat → Bool
  | none => false
  | some n => n ≠ 0

/-- Python truthiness of an optional string (`None` and `""` are falsy). -/
def truthyS : Option String → Bool
  | none => false
  | some s => s ≠ ""

/-- Python `str` applied to an optional integer (`str(None) = "None"`),
as in `str(issue_number)`. -/
def pyStrOfOptNat : Option Nat → String
  | none => "None"
  | some n => toString n

/-- Python `str.lower`, restricted to ASCII (all trigger substrings the
handler lowercases against are ASCII). -/
def lowerStr (s : String) : String := String.mk (s.toList.map Char.toLower)

/-- The Python substring test `needle in hay`. -/
def containsSub (needle : Chars) : Chars → Bool
  | [] => needle.isEmpty
  | c :: cs => (dropLit needle (c :: cs)).isSome || containsSub needle cs

/-- Constant `ADW_BOT_IDENTIFIER`: bot marker preventing webhook loops. -/
def ADW_BOT_IDENTIFIER : String := "[ADW-BOT]"

/-- Constant `AVAILABLE_WORKFLOWS` as listed in the source. -/
def AVAILABLE_WORKFLOWS : List String :=
  ["adw_plan", "adw_build", "adw_test", "adw_plan_build", "adw_plan_build_test"]

/-- A JSON value as it appears in the response dictionaries. -/
inductive JVal
  | s (v : String)
  | num (v : Option Nat)
deriving DecidableEq

/-- A response body: a Python dict in insertion order. -/
abbrev Response := List (String × JVal)

/-- First value bound to a key (Python dict lookup over our ordered
association lists; keys are unique in every dict the model builds). -/
def lookupKey {α : Type} : List (String × α) → String → Option α
  | [], _ => none
  | (k', v) :: rest, k => if k' = k then some v else lookupKey rest k

/-- Python `dict` update of one key: replace in place when the key is
present (insertion order kept), append otherwise. -/
def upsert : List (String × String) → String → String → List (String × String)
  | [], k, v => [(k, v)]
  | (k', v') :: rest, k, v =>
    if k' = k then (k, v) :: rest else (k', v') :: upsert rest k v

/-- The background process launched by `subprocess.Popen`: the script
name `f"{workflow}.py"` (the directory prefix, a filesystem path, is not
modelled) and the two arguments `str(issue_number)` and `adw_id`. -/
structure Launch where
  script : String
  args : List String
deriving DecidableEq

/-- The fields the handler reads out of a parsed webhook payload, with the
`get(..., default)` fallbacks already applied. -/
structure Payload where
  action : String
  issueNumber : Option Nat
  issueBody : String
  commentBody : String

/-- Environment of one request: the classification helper
`extract_adw_info` (a parameter, so that claims not depending on its
internals hold for every classifier), the two fresh ids drawn from
`make_adw_id`, the inputs of `find_latest_adw_id_in_issue`, and the
persisted state store read by `ADWState` (empty dict when no record
exists). -/
structure Env where
  extract : String → String → Option String × Option String
  tempId : String
  freshId : String
  repoPath : Option String
  fetch : FetchOutcome
  store : String → List (String × String)

/-- Result of classification (lines 138–174): the `workflow`,
`provided_adw_id` and `trigger_reason` variables after the event-type
dispatch.  (`content_to_check` only feeds log lines and is omitted.) -/
structure Classified where
  workflow : Option String
  provided : Option String
  trigger_reason : String

/-- Event classification: the `issues`/`opened` and
`issue_comment`/`created` branches, the `"adw_"` trigger-substring test on
the lowercased body, and the bot-marker guard. -/
def classify (eventType : String) (p : Payload) (env : Env) : Classified :=
  if eventType = "issues" ∧ p.action = "opened" ∧ truthyN p.issueNumber then
    if containsSub "adw_".toList (lowerStr p.issueBody).toList then
      let r := env.extract p.issueBody env.tempId
      { workflow := r.1, provided := r.2,
        trigger_reason :=
          if truthyS r.1 then "New issue with " ++ r.1.getD "" ++ " workflow"
          else "" }
    else ⟨none, none, ""⟩
  else if eventType = "issue_comment" ∧ p.action = "created" ∧ truthyN p.issueNumber then
    if containsSub ADW_BOT_IDENTIFIER.toList p.commentBody.toList then
      ⟨none, none, ""⟩
    else if containsSub "adw_".toList (lowerStr p.commentBody).toList then
      let r := env.extract p.commentBody env.tempId
      { workflow := r.1, provided := r.2,
        trigger_reason :=
          if truthyS r.1 then "Comment with " ++ r.1.getD "" ++ " workflow"
          else "" }
    else ⟨none, none, ""⟩
  else ⟨none, none, ""⟩

/-- The `adw_build` guard (lines 177–217): when `adw_build` arrives
without a truthy explicit id, try auto-detection; on success the detected
id becomes `provided_adw_id`, on failure `workflow` is cleared.  (The
best-effort explanatory comments posted to the issue are logging-level
effects and are not modelled.) -/
def resolveAdw (eventType : String) (p : Payload) (env : Env) : Classified :=
  let c := classify eventType p env
  if c.workflow = some "adw_build" ∧ ¬ truthyS c.provided then
    match find_latest_adw_id_in_issue env.repoPath env.fetch with
    | some id => { c with provided := some id }
    | none => { c with workflow := none }
  else c

/-- What one handled request produced: the response body, the launched
background processes, and the `ADWState` saves as (adw id, record) pairs. -/
structure HandlerResult where
  response : Response
  launches : List Launch
  saves : List (String × List (String × String))
deriving DecidableEq

/-- The `"ignored"` response (lines 290–295). -/
def ignoredResponse (eventType action : String) : Response :=
  [("status", .s "ignored"),
   ("reason", .s ("Not a triggering event (event=" ++ eventType ++
      ", action=" ++ action ++ ")"))]

/-- The `"error"` response of the top-level `except` (lines 297–303). -/
def errorResponse : Response :=
  [("status", .s "error"), ("message", .s "Internal error processing webhook")]

/-- The dispatch block (lines 219–295), after classification and the
`adw_build` guard.  The state-continuation step follows the model the spec
gives of the unavailable `ADWState` module: the constructor loads the persisted
record for the id (empty when absent), `update` is a dictionary merge,
and `save` persists the merged record.  Guard: only update and save when
the loaded record has no truthy `branch_name`. -/
def github_webhook_core (eventType : String) (p : Payload) (env : Env) :
    HandlerResult :=
  let c := resolveAdw eventType p env
  if truthyS c.workflow then
    let wf := c.workflow.getD ""
    let adw_id := if truthyS c.provided then c.provided.getD "" else env.freshId
    let saves :=
      if truthyS c.provided then
        let pid := c.provided.getD ""
        let data := env.store pid
        if truthyS (lookupKey data "branch_name") then []
        else
          [(pid, upsert (upsert data "adw_id" pid)
              "issue_number" (pyStrOfOptNat p.issueNumber))]
      else []
    { response :=
        [("status", .s "accepted"),
         ("issue", .num p.issueNumber),
         ("adw_id", .s adw_id),
         ("workflow", .s wf),
         ("message", .s ("ADW " ++ wf ++ " workflow triggered for issue #" ++
            pyStrOfOptNat p.issueNumber)),
         ("reason", .s c.trigger_reason),
         ("logs", .s ("agents/" ++ adw_id ++ "/" ++ wf ++ "/"))],
      launches := [⟨wf ++ ".py", [pyStrOfOptNat p.issueNumber, adw_id]⟩],
      saves := saves }
  else
    { response := ignoredResponse eventType p.action, launches := [], saves := [] }

/-- Endpoint `github_webhook`: the whole handler under its top-level
`try/except`.  The one modelled exception source is `request.json()`
failing to parse the body; any such exception becomes the `"error"`
response with no launch and no save. -/
def github_webhook (eventType : String) (body : Except Unit Payload)
    (env : Env) : HandlerResult :=
  match body with
  | .error _ => { response := errorResponse, launches := [], saves := [] }
  | .ok p => github_webhook_core eventType p env

/-! ## `extract_adw_info`, modelled from the spec -/

/-- Modelled from the spec: `extract_adw_info` lives in
`adw_modules/workflow_ops.py`, which is not part of the provided sources.
Per the spec, the workflow selector is "derived from matching literal
substrings in free text" over the fixed workflow vocabulary, and an
optional explicit run identifier — "an 8-character (or UUID-like) token"
— is extracted from the same text, as in the example given by the spec,
`"adw_build 75de9bea"`.  We model: the selector is the longest workflow
name occurring as a substring of the lowercased text. -/
def pickWorkflow (low : Chars) : Option String :=
  (["adw_plan_build_test", "adw_plan_build", "adw_plan", "adw_build",
    "adw_test"] : List String).find? (fun w => containsSub w.toList low)

/-- Split on whitespace, dropping empty tokens (Python `str.split()`). -/
def splitWSAux : Chars → Chars → List Chars
  | [], acc => if acc.isEmpty then [] else [acc.reverse]
  | c :: cs, acc =>
    if isSpaceB c then
      if acc.isEmpty then splitWSAux cs [] else acc.reverse :: splitWSAux cs []
    else splitWSAux cs (c :: acc)

def splitWS (cs : Chars) : List Chars := splitWSAux cs []

/-- An 8-character lowercase-hex token. -/
def isHex8 (t : Chars) : Bool := t.length = 8 && t.all isHex

/-- Modelled from the spec: the explicit identifier is the
whitespace-separated token of 8 lowercase-hex characters immediately
following the selector token, when there is one. -/
def idAfter (w : Chars) : List Chars → Option String
  | [] => none
  | t :: ts =>
    if t = w then
      match ts with
      | [] => none
      | t2 :: _ => if isHex8 t2 then some (String.mk t2) else none
    else idAfter w ts

/-- Modelled from the spec: `extract_adw_info(text, temp_id)` returns the
workflow selector matched as a literal substring of the lowercased text
and the optional explicit run identifier following it.  `temp_id` is the
temporary classification id, unused by the extraction itself. -/
def extract_adw_info (text : String) (tempId : String) :
    Option String × Option String :=
  let low := (lowerStr text).toList
  match pickWorkflow low with
  | none => (none, none)
  | some w => (some w, idAfter w.toList (splitWS low))

/-! ## Concrete payloads and environments used by the witnesses -/

/-- A payload carrying no trigger at all. -/
def samplePayload : Payload :=
  { action := "created", issueNumber := some 7, issueBody := "",
    commentBody := "hello world" }

/-- A minimal environment with a classifier that never matches. -/
def sampleEnv : Env :=
  { extract := fun _ _ => (none, none), tempId := "t", freshId := "f",
    repoPath := none, fetch := .ok [], store := fun _ => [] }

/-- The example of the spec: a created comment `adw_build 75de9bea`. -/
def examplePayload : Payload :=
  { action := "created", issueNumber := some 42, issueBody := "",
    commentBody := "adw_build 75de9bea" }

/-- Environment for the dispatch example: the spec-modelled classifier,
no prior comments, no persisted state. -/
def exampleEnv : Env :=
  { extract := extract_adw_info, tempId := "deadbeef", freshId := "cafebabe",
    repoPath := some "owner/repo", fetch := .ok [], store := fun _ => [] }

/-- Environment whose persisted record for every id already carries a
branch name. -/
def guardEnv : Env :=
  { exampleEnv with store := fun _ => [("branch_name", "feat-x")] }

/-- A created comment requesting `adw_build` with no identifier token. -/
def buildNoIdPayload : Payload :=
  { action := "created", issueNumber := some 42, issueBody := "",
    commentBody := "adw_build" }

/-- A bot-marked comment that also carries a trigger substring. -/
def botPayload : Payload :=
  { action := "created", issueNumber := some 42, issueBody := "",
    commentBody := "[ADW-BOT] adw_build 75de9bea" }

/-- A created comment requesting `adw_plan` with no identifier. -/
def freshPayload : Payload :=
  { action := "created", issueNumber := some 42, issueBody := "",
    commentBody := "adw_plan please" }

/-- The shape `8-4-4-4-12` of lowercase-hex characters that the capture
group of all three recovery patterns requires. -/
def uuidShape (u : Chars) : Prop :=
  ∃ a b c d e : Chars,
    u = a ++ '-' :: b ++ '-' :: c ++ '-' :: d ++ '-' :: e ∧
    a.length = 8 ∧ b.length = 4 ∧ c.length = 4 ∧ d.length = 4 ∧
    e.length = 12 ∧
    (∀ x ∈ a, isHex x = true) ∧ (∀ x ∈ b, isHex x = true) ∧
    (∀ x ∈ c, isHex x = true) ∧ (∀ x ∈ d, isHex x = true) ∧
    (∀ x ∈ e, isHex x = true)

/-! ## Lemmas about the recovery scan -/

theorem takeExact_spec (p : Char → Bool) (n : Nat) :
    ∀ cs g r : Chars, takeExact p n cs = some (g, r) →
      g.length = n ∧ ∀ c ∈ g, p c = true := by
  induction n with
  | zero =>
    intro cs g r h
    simp only [takeExact, Option.some.injEq, Prod.mk.injEq] at h
    obtain ⟨hg, -⟩ := h
    subst hg
    simp
  | succ m ih =>
    intro cs g r h
    cases cs with
    | nil => simp [takeExact] at h
    | cons c cs' =>
      simp only [takeExact] at h
      by_cases hp : p c
      · rw [if_pos hp] at h
        cases hm : takeExact p m cs' with
        | none => rw [hm] at h; exact absurd h (by simp)
        | some pr =>
          obtain ⟨g', r'⟩ := pr
          rw [hm] at h
          simp only [Option.some.injEq, Prod.mk.injEq] at h
          obtain ⟨hg, -⟩ := h
          obtain ⟨hl, hall⟩ := ih cs' g' r' hm
          subst hg
          refine ⟨by simp [hl], ?_⟩
          intro x hx
          rcases List.mem_cons.mp hx with h1 | h2
          · subst h1; exact hp
          · exact hall x h2
      · rw [if_neg hp] at h
        exact absurd h (by simp)

theorem matchUUID_shape (cs u r : Chars) (h : matchUUID cs = some (u, r)) :
    uuidShape u := by
  unfold matchUUID at h
  split at h
  · exact absurd h (by simp)
  next a r1 h8 =>
  split at h
  · exact absurd h (by simp)
  next r2 hd1 =>
  split at h
  · exact absurd h (by simp)
  next b r3 h4b =>
  split at h
  · exact absurd h (by simp)
  next r4 hd2 =>
  split at h
  · exact absurd h (by simp)
  next c' r5 h4c =>
  split at h
  · exact absurd h (by simp)
  next r6 hd3 =>
  split at h
  · exact absurd h (by simp)
  next d r7 h4d =>
  split at h
  · exact absurd h (by simp)
  next r8 hd4 =>
  split at h
  · exact absurd h (by simp)
  next e r9 h12 =>
  simp only [Option.some.injEq, Prod.mk.injEq] at h
  obtain ⟨hu, -⟩ := h
  obtain ⟨ha, hauuid⟩ := takeExact_spec isHex 8 cs a r1 h8
  obtain ⟨hb, hbuuid⟩ := takeExact_spec isHex 4 r2 b r3 h4b
  obtain ⟨hc, hcuuid⟩ := takeExact_spec isHex 4 r4 c' r5 h4c
  obtain ⟨hdl, hduuid⟩ := takeExact_spec isHex 4 r6 d r7 h4d
  obtain ⟨he, heuuid⟩ := takeExact_spec isHex 12 r8 e r9 h12
  exact ⟨a, b, c', d, e, hu.symm, ha, hb, hc, hdl, he,
    hauuid, hbuuid, hcuuid, hduuid, heuuid⟩

theorem matchJsonAt_shape (cs u : Chars) (h : matchJsonAt cs = some u) :
    uuidShape u := by
  unfold matchJsonAt at h
  split at h
  · exact absurd h (by simp)
  next r1 _ =>
  split at h
  · exact absurd h (by simp)
  next r2 _ =>
  split at h
  · exact absurd h (by simp)
  next v r3 hm =>
  split at h
  · exact absurd h (by simp)
  next r4 _ =>
  simp only [Option.some.injEq] at h
  subst h
  exact matchUUID_shape r2 v r3 hm

theorem matchExplicitAt_shape (cs u : Chars) (h : matchExplicitAt cs = some u) :
    uuidShape u := by
  unfold matchExplicitAt at h
  split at h
  · exact absurd h (by simp)
  next r1 _ =>
  split at h
  · exact absurd h (by simp)
  next v r2 hm =>
  simp only [Option.some.injEq] at h
  subst h
  exact matchUUID_shape (dropSpaces r1) v r2 hm

theorem matchPrefixAt_shape (cs u : Chars) (h : matchPrefixAt cs = some u) :
    uuidShape u := by
  unfold matchPrefixAt at h
  split at h
  · exact absurd h (by simp)
  next v r1 hm =>
  split at h
  · exact absurd h (by simp)
  next r2 _ =>
  by_cases hr : matchRoleColon roleAlternatives r2 = true
  · rw [if_pos hr] at h
    simp only [Option.some.injEq] at h
    subst h
    exact matchUUID_shape cs v r1 hm
  · rw [if_neg hr] at h
    exact absurd h (by simp)

theorem search_some (m : Chars → Option Chars) :
    ∀ cs u : Chars, search m cs = some u → ∃ t, m t = some u := by
  intro cs
  induction cs with
  | nil => intro u h; exact ⟨[], h⟩
  | cons c cs' ih =>
    intro u h
    simp only [search] at h
    cases hm : m (c :: cs') with
    | some v =>
      rw [hm] at h
      simp only [Option.some.injEq] at h
      subst h
      exact ⟨c :: cs', hm⟩
    | none =>
      rw [hm] at h
      exact ih u h

theorem findAdwIdInBody_shape (body u : Chars)
    (h : findAdwIdInBody body = some u) : uuidShape u := by
  unfold findAdwIdInBody at h
  split at h
  next v hj =>
    simp only [Option.some.injEq] at h
    subst h
    obtain ⟨t, ht⟩ := search_some matchJsonAt body v hj
    exact matchJsonAt_shape t v ht
  next hj =>
  split at h
  next v he =>
    simp only [Option.some.injEq] at h
    subst h
    obtain ⟨t, ht⟩ := search_some matchExplicitAt body v he
    exact matchExplicitAt_shape t v ht
  next he =>
    obtain ⟨t, ht⟩ := search_some matchPrefixAt body u h
    exact matchPrefixAt_shape t u ht

theorem scanComments_eq_none (l : List Comment)
    (h : ∀ x ∈ l, findAdwIdInBody (commentBodyChars x) = none) :
    scanComments l = none := by
  induction l with
  | nil => rfl
  | cons c cs ih =>
    simp only [scanComments]
    rw [h c (by simp)]
    exact ih (fun x hx => h x (by simp [hx]))

theorem scanComments_first_match (pre : List Comment) (c : Comment)
    (post : List Comment) (u : Chars)
    (hpre : ∀ x ∈ pre, findAdwIdInBody (commentBodyChars x) = none)
    (hc : findAdwIdInBody (commentBodyChars c) = some u) :
    scanComments (pre ++ c :: post) = some (String.mk u) := by
  induction pre with
  | nil =>
    simp only [List.nil_append, scanComments]
    rw [hc]
  | cons p ps ih =>
    simp only [List.cons_append, scanComments]
    rw [hpre p (by simp)]
    exact ih (fun x hx => hpre x (by simp [hx]))

theorem scanComments_some_shape (l : List Comment) (s : String)
    (h : scanComments l = some s) : uuidShape s.toList := by
  induction l with
  | nil => exact absurd h (by simp [scanComments])
  | cons c cs ih =>
    simp only [scanComments] at h
    cases hf : findAdwIdInBody (commentBodyChars c) with
    | some u =>
      rw [hf] at h
      simp only [Option.some.injEq] at h
      subst h
      exact findAdwIdInBody_shape (commentBodyChars c) u hf
    | none =>
      rw [hf] at h
      exact ih h

/-! ## Lemmas about the handler -/

theorem lookupKey_upsert_self (d : List (String × String)) (k v : String) :
    lookupKey (upsert d k v) k = some v := by
  induction d with
  | nil => simp [upsert, lookupKey]
  | cons hd tl ih =>
    obtain ⟨k', v'⟩ := hd
    by_cases h : k' = k
    · simp [upsert, h, lookupKey]
    · simp [upsert, h, lookupKey, ih]

theorem lookupKey_upsert_ne (d : List (String × String)) (k v k' : String)
    (h : k ≠ k') : lookupKey (upsert d k v) k' = lookupKey d k' := by
  induction d with
  | nil => simp [upsert, lookupKey, h]
  | cons hd tl ih =>
    obtain ⟨k0, v0⟩ := hd
    by_cases h0 : k0 = k
    · subst h0
      simp [upsert, lookupKey, h]
    · simp [upsert, h0, lookupKey, ih]

theorem resolveAdw_of_classify_none (et : String) (p : Payload) (env : Env)
    (h : classify et p env = ⟨none, none, ""⟩) :
    resolveAdw et p env = ⟨none, none, ""⟩ := by
  simp [resolveAdw, h]

theorem core_of_workflow_none (et : String) (p : Payload) (env : Env)
    (h : (resolveAdw et p env).workflow = none) :
    github_webhook_core et p env =
      ⟨ignoredResponse et p.action, [], []⟩ := by
  simp [github_webhook_core, h, truthyS]

/-! ## The claims -/

/-- C3: over a non-empty comment list scanned newest-first (the order the
fetch delivers), identifier recovery returns the identifier found in the
newest comment matching any of the three patterns, returns none when no
comment matches, and within one comment tries the JSON pattern, then the
explicit mention, then the prefixed label, in that priority order. -/
theorem recovery_newest_first :
    (∀ (rp : String) (pre : List Comment) (c : Comment) (post : List Comment)
        (u : Chars),
        (∀ x ∈ pre, findAdwIdInBody (commentBodyChars x) = none) →
        findAdwIdInBody (commentBodyChars c) = some u →
        find_latest_adw_id_in_issue (some rp) (.ok (pre ++ c :: post)) =
          some (String.mk u)) ∧
    (∀ (rp : String) (l : List Comment),
        (∀ x ∈ l, findAdwIdInBody (commentBodyChars x) = none) →
        find_latest_adw_id_in_issue (some rp) (.ok l) = none) ∧
    (∀ body u : Chars, search matchJsonAt body = some u →
        findAdwIdInBody body = some u) ∧
    (∀ body u : Chars, search matchJsonAt body = none →
        search matchExplicitAt body = some u →
        findAdwIdInBody body = some u) ∧
    (∀ body : Chars, search matchJsonAt body = none →
        search matchExplicitAt body = none →
        findAdwIdInBody body = search matchPrefixAt body) := by
  refine ⟨?_, ?_, ?_, ?_, ?_⟩
  · intro rp pre c post u hpre hc
    have hne : (pre ++ c :: post).isEmpty = false := by
      cases pre <;> simp
    simp only [find_latest_adw_id_in_issue, hne, Bool.false_eq_true,
      if_false]
    exact scanComments_first_match pre c post u hpre hc
  · intro rp l h
    cases l with
    | nil => rfl
    | cons c cs =>
      simp only [find_latest_adw_id_in_issue, List.isEmpty_cons,
        Bool.false_eq_true, if_false]
      exact scanComments_eq_none (c :: cs) h
  · intro body u hj
    simp [findAdwIdInBody, hj]
  · intro body u hj he
    simp [findAdwIdInBody, hj, he]
  · intro body hj he
    simp [findAdwIdInBody, hj, he]

/-- Witness for C3: a concrete three-comment scan in which the newest
matching comment (the second) wins over an older matching one. -/
theorem recovery_newest_first_witness :
    find_latest_adw_id_in_issue (some "owner/repo")
      (.ok [⟨some "no id here"⟩,
            ⟨some "adw_id: aaaaaaaa-0000-0000-0000-000000000000"⟩,
            ⟨some "adw_id: bbbbbbbb-0000-0000-0000-000000000000"⟩]) =
      some (String.mk "aaaaaaaa-0000-0000-0000-000000000000".toList) :=
  recovery_newest_first.1 "owner/repo" [⟨some "no id here"⟩]
    ⟨some "adw_id: aaaaaaaa-0000-0000-0000-000000000000"⟩
    [⟨some "adw_id: bbbbbbbb-0000-0000-0000-000000000000"⟩]
    "aaaaaaaa-0000-0000-0000-000000000000".toList
    (by decide) (by decide)

/-- C8: when identifier recovery hits a failure — no repository path, or
the comment fetch raises — `find_latest_adw_id_in_issue` returns none
instead of propagating the exception. -/
theorem recovery_failure_returns_none (rp : Option String)
    (f : FetchOutcome) (h : rp = none ∨ f = .raised) :
    find_latest_adw_id_in_issue rp f = none := by
  rcases h with h | h
  · subst h; rfl
  · subst h; cases rp <;> rfl

/-- Witness for C8: both failure modes at concrete inputs. -/
theorem recovery_failure_returns_none_witness :
    find_latest_adw_id_in_issue none
        (.ok [⟨some "adw_id: aaaaaaaa-0000-0000-0000-000000000000"⟩]) =
      none ∧
    find_latest_adw_id_in_issue (some "owner/repo") .raised = none :=
  ⟨recovery_failure_returns_none none _ (Or.inl rfl),
   recovery_failure_returns_none (some "owner/repo") .raised (Or.inr rfl)⟩

/-- C9: every identifier recovered from issue comments has the full
lowercase-hex `8-4-4-4-12` UUID shape, because all three patterns share
that capture group; in particular a bare 8-character id such as
`75de9bea` appearing in a comment is never recovered. -/
theorem recovered_id_is_full_uuid :
    (∀ (rp : Option String) (f : FetchOutcome) (s : String),
        find_latest_adw_id_in_issue rp f = some s → uuidShape s.toList) ∧
    find_latest_adw_id_in_issue (some "owner/repo")
      (.ok [⟨some "adw_build 75de9bea done, adw_id: 75de9bea"⟩]) = none := by
  constructor
  · intro rp f s h
    unfold find_latest_adw_id_in_issue at h
    split at h
    · exact absurd h (by simp)
    split at h
    · exact absurd h (by simp)
    next comments =>
      by_cases he : comments.isEmpty = true
      · rw [if_pos he] at h
        exact absurd h (by simp)
      · rw [if_neg he] at h
        exact scanComments_some_shape comments s h
  · decide

/-- Witness for C9: a recovered full UUID indeed has the shape. -/
theorem recovered_id_is_full_uuid_witness :
    uuidShape ("75de9bea-1111-2222-3333-444444444444" : String).toList :=
  recovered_id_is_full_uuid.1 (some "owner/repo")
    (.ok [⟨some "adw_id: 75de9bea-1111-2222-3333-444444444444"⟩])
    "75de9bea-1111-2222-3333-444444444444" (by decide)

/-- C2: a request classified as the continuation workflow `adw_build`
without a truthy explicit identifier, for which recovery over the prior
comments finds nothing, is answered with the ignored response and
launches no background process. -/
theorem adw_build_without_id_ignored (et : String) (p : Payload) (env : Env)
    (hw : (classify et p env).workflow = some "adw_build")
    (hp : truthyS (classify et p env).provided = false)
    (hd : find_latest_adw_id_in_issue env.repoPath env.fetch = none) :
    (github_webhook et (.ok p) env).response = ignoredResponse et p.action ∧
    (github_webhook et (.ok p) env).launches = [] := by
  have hr : (resolveAdw et p env).workflow = none := by
    simp [resolveAdw, hw, hp, hd]
  have hcore := core_of_workflow_none et p env hr
  exact ⟨by simp [github_webhook, hcore], by simp [github_webhook, hcore]⟩

/-- Witness for C2: comment `adw_build` with no identifier anywhere and
an empty comment history is ignored. -/
theorem adw_build_without_id_ignored_witness :
    (github_webhook "issue_comment" (.ok buildNoIdPayload) exampleEnv).response =
      ignoredResponse "issue_comment" buildNoIdPayload.action ∧
    (github_webhook "issue_comment" (.ok buildNoIdPayload) exampleEnv).launches =
      [] :=
  adw_build_without_id_ignored "issue_comment" buildNoIdPayload exampleEnv
    (by decide) (by decide) (by decide)

/-- C4: an `issue_comment`/`created` event whose comment body contains the
bot marker `[ADW-BOT]` never dispatches a workflow: no process is
launched, no state is saved, and the response status is "ignored", not
"accepted", for every classifier and any trigger substring present. -/
theorem bot_comment_never_dispatched (p : Payload) (env : Env)
    (ha : p.action = "created")
    (hb : containsSub ADW_BOT_IDENTIFIER.toList p.commentBody.toList = true) :
    (github_webhook "issue_comment" (.ok p) env).launches = [] ∧
    (github_webhook "issue_comment" (.ok p) env).saves = [] ∧
    lookupKey (github_webhook "issue_comment" (.ok p) env).response "status" =
      some (.s "ignored") := by
  have hc : classify "issue_comment" p env = ⟨none, none, ""⟩ := by
    unfold classify
    rw [if_neg (by simp)]
    by_cases h2 : "issue_comment" = "issue_comment" ∧ p.action = "created" ∧
        truthyN p.issueNumber
    · rw [if_pos h2, if_pos hb]
    · rw [if_neg h2]
  have hcore := core_of_workflow_none "issue_comment" p env
    (by rw [resolveAdw_of_classify_none _ _ _ hc])
  refine ⟨by simp [github_webhook, hcore], by simp [github_webhook, hcore], ?_⟩
  simp [github_webhook, hcore, ignoredResponse, lookupKey]

/-- Witness for C4: a bot comment that also contains `adw_build` and an
id. -/
theorem bot_comment_never_dispatched_witness :
    (github_webhook "issue_comment" (.ok botPayload) exampleEnv).launches = [] ∧
    (github_webhook "issue_comment" (.ok botPayload) exampleEnv).saves = [] ∧
    lookupKey (github_webhook "issue_comment" (.ok botPayload) exampleEnv).response
      "status" = some (.s "ignored") :=
  bot_comment_never_dispatched botPayload exampleEnv rfl (by decide)

/-- C6: an event whose type/action pair is neither `issues`/`opened` nor
`issue_comment`/`created`, or whose relevant body does not contain the
trigger substring `adw_` case-insensitively, resolves no workflow
selector and gets the ignored response with no launched process. -/
theorem non_trigger_event_ignored (et : String) (p : Payload) (env : Env)
    (h : ¬((et = "issues" ∧ p.action = "opened") ∨
           (et = "issue_comment" ∧ p.action = "created")) ∨
         ((et = "issues" →
            containsSub "adw_".toList (lowerStr p.issueBody).toList = false) ∧
          (et = "issue_comment" →
            containsSub "adw_".toList (lowerStr p.commentBody).toList = false))) :
    (resolveAdw et p env).workflow = none ∧
    (github_webhook et (.ok p) env).response = ignoredResponse et p.action ∧
    (github_webhook et (.ok p) env).launches = [] := by
  have hc : classify et p env = ⟨none, none, ""⟩ := by
    unfold classify
    by_cases h1 : et = "issues" ∧ p.action = "opened" ∧ truthyN p.issueNumber
    · rw [if_pos h1]
      rcases h with h | ⟨hi, -⟩
      · exact absurd (Or.inl ⟨h1.1, h1.2.1⟩) h
      · rw [if_neg (by simpa using hi h1.1)]
    · rw [if_neg h1]
      by_cases h2 : et = "issue_comment" ∧ p.action = "created" ∧
          truthyN p.issueNumber
      · rw [if_pos h2]
        by_cases hbm : containsSub ADW_BOT_IDENTIFIER.toList
            p.commentBody.toList = true
        · rw [if_pos hbm]
        · rw [if_neg hbm]
          rcases h with h | ⟨-, hcm⟩
          · exact absurd (Or.inr ⟨h2.1, h2.2.1⟩) h
          · rw [if_neg (by simpa using hcm h2.1)]
      · rw [if_neg h2]
  have hr := resolveAdw_of_classify_none et p env hc
  have hcore := core_of_workflow_none et p env (by rw [hr])
  exact ⟨by rw [hr], by simp [github_webhook, hcore],
    by simp [github_webhook, hcore]⟩

/-- Witness for C6: a `push` event is ignored whatever its payload says. -/
theorem non_trigger_event_ignored_witness :
    (resolveAdw "push" samplePayload sampleEnv).workflow = none ∧
    (github_webhook "push" (.ok samplePayload) sampleEnv).response =
      ignoredResponse "push" samplePayload.action ∧
    (github_webhook "push" (.ok samplePayload) sampleEnv).launches = [] :=
  non_trigger_event_ignored "push" samplePayload sampleEnv
    (Or.inl (by decide))

/-- C1: when a request resolves a workflow together with a provided run
identifier, the persisted record for that identifier is left entirely
unchanged (no save at all) whenever it already has a non-empty
`branch_name`; only when `branch_name` is absent or empty does a single
save happen, whose record carries the identifier under `adw_id` and the
issue number under `issue_number`. -/
theorem state_guard_preserves_branch (et : String) (p : Payload) (env : Env)
    (pid : String)
    (hw : truthyS (resolveAdw et p env).workflow = true)
    (hp : (resolveAdw et p env).provided = some pid)
    (hpid : pid ≠ "") :
    (truthyS (lookupKey (env.store pid) "branch_name") = true →
      (github_webhook et (.ok p) env).saves = []) ∧
    (truthyS (lookupKey (env.store pid) "branch_name") = false →
      ∃ rec, (github_webhook et (.ok p) env).saves = [(pid, rec)] ∧
        lookupKey rec "adw_id" = some pid ∧
        lookupKey rec "issue_number" = some (pyStrOfOptNat p.issueNumber)) := by
  have hps : truthyS (some pid) = true := by simp [truthyS, hpid]
  constructor
  · intro hb
    simp [github_webhook, github_webhook_core, hw, hp, hps, hb]
  · intro hb
    refine ⟨upsert (upsert (env.store pid) "adw_id" pid) "issue_number"
      (pyStrOfOptNat p.issueNumber), ?_, ?_, ?_⟩
    · simp [github_webhook, github_webhook_core, hw, hp, hps, hb]
    · rw [lookupKey_upsert_ne _ _ _ _ (by decide)]
      exact lookupKey_upsert_self _ _ _
    · exact lookupKey_upsert_self _ _ _

/-- Witness for C1: with a persisted record already holding
`branch_name = "feat-x"`, the request `adw_build 75de9bea` saves
nothing. -/
theorem state_guard_preserves_branch_witness :
    truthyS (lookupKey (guardEnv.store "75de9bea") "branch_name") = true ∧
    (github_webhook "issue_comment" (.ok examplePayload) guardEnv).saves = [] :=
  ⟨by decide,
   (state_guard_preserves_branch "issue_comment" examplePayload guardEnv
      "75de9bea" (by decide) (by decide) (by decide)).1 (by decide)⟩

/-- C10: a request whose resolved identifier is not a truthy provided one
(so the dispatch runs under a freshly generated id, or nothing is
dispatched) writes no state record at all. -/
theorem fresh_id_writes_no_state (et : String) (p : Payload) (env : Env)
    (hp : truthyS (resolveAdw et p env).provided = false) :
    (github_webhook et (.ok p) env).saves = [] := by
  by_cases hw : truthyS (resolveAdw et p env).workflow = true
  · simp [github_webhook, github_webhook_core, hw, hp]
  · simp [github_webhook, github_webhook_core, hw]

/-- Witness for C10: an accepted `adw_plan` request with no explicit or
recovered identifier launches under the fresh id and saves nothing. -/
theorem fresh_id_writes_no_state_witness :
    (github_webhook "issue_comment" (.ok freshPayload) exampleEnv).launches =
      [⟨"adw_plan.py", ["42", "cafebabe"]⟩] ∧
    (github_webhook "issue_comment" (.ok freshPayload) exampleEnv).saves = [] :=
  ⟨by decide,
   fresh_id_writes_no_state "issue_comment" freshPayload exampleEnv (by decide)⟩

/-- C5: every request gets a 200-status JSON body of one of three shapes:
on acceptance exactly the keys status, issue, adw_id, workflow, message,
reason, logs with status "accepted"; otherwise an ignored body with a
reason or an error body with a message; and a body whose parse raises is
converted to the error response instead of propagating. -/
theorem webhook_response_shape (et : String) (b : Except Unit Payload)
    (env : Env) :
    (((github_webhook et b env).response.map Prod.fst =
        ["status", "issue", "adw_id", "workflow", "message", "reason",
         "logs"] ∧
      lookupKey (github_webhook et b env).response "status" =
        some (.s "accepted")) ∨
     (∃ reason, (github_webhook et b env).response =
        [("status", .s "ignored"), ("reason", .s reason)]) ∨
     (github_webhook et b env).response =
        [("status", .s "error"),
         ("message", .s "Internal error processing webhook")]) ∧
    (∀ e : Unit, b = .error e →
      (github_webhook et b env).response = errorResponse) := by
  constructor
  · cases b with
    | error e => right; right; rfl
    | ok p =>
      by_cases hw : truthyS (resolveAdw et p env).workflow = true
      · left
        constructor
        · simp [github_webhook, github_webhook_core, hw]
        · simp [github_webhook, github_webhook_core, hw, lookupKey]
      · right; left
        refine ⟨"Not a triggering event (event=" ++ et ++ ", action=" ++
          p.action ++ ")", ?_⟩
        simp [github_webhook, github_webhook_core, hw, ignoredResponse]
  · intro e hb
    subst hb
    rfl

/-- Witness for C5: a body that fails to parse yields the error
response. -/
theorem webhook_response_shape_witness :
    (github_webhook "issues" (.error ()) sampleEnv).response =
      errorResponse :=
  (webhook_response_shape "issues" (.error ()) sampleEnv).2 () rfl

/-- C7: an accepted request with resolved selector and identifier
launches the external script named after the selector with exactly the
issue number and the run identifier as its two arguments, and answers
with an acknowledgment carrying the selector, the identifier and the
human-readable reason; in particular the body `adw_build 75de9bea`
resolves the build selector with explicit identifier `75de9bea` and
launches the build script with it. -/
theorem dispatch_launches_selector_script :
    (∀ (et : String) (p : Payload) (env : Env) (wf : String),
        (resolveAdw et p env).workflow = some wf → wf ≠ "" →
        ∃ aid : String,
          (github_webhook et (.ok p) env).launches =
            [⟨wf ++ ".py", [pyStrOfOptNat p.issueNumber, aid]⟩] ∧
          lookupKey (github_webhook et (.ok p) env).response "workflow" =
            some (.s wf) ∧
          lookupKey (github_webhook et (.ok p) env).response "adw_id" =
            some (.s aid) ∧
          lookupKey (github_webhook et (.ok p) env).response "reason" =
            some (.s (resolveAdw et p env).trigger_reason) ∧
          ((resolveAdw et p env).provided = some aid ∨
            (truthyS (resolveAdw et p env).provided = false ∧
              aid = env.freshId))) ∧
    ((github_webhook "issue_comment" (.ok examplePayload) exampleEnv).launches =
        [⟨"adw_build.py", ["42", "75de9bea"]⟩] ∧
      (resolveAdw "issue_comment" examplePayload exampleEnv).workflow =
        some "adw_build" ∧
      (resolveAdw "issue_comment" examplePayload exampleEnv).provided =
        some "75de9bea" ∧
      lookupKey (github_webhook "issue_comment" (.ok examplePayload)
          exampleEnv).response "adw_id" = some (.s "75de9bea")) := by
  constructor
  · intro et p env wf hw hne
    have htw : truthyS (some wf) = true := by simp [truthyS, hne]
    by_cases hp : truthyS (resolveAdw et p env).provided = true
    · obtain ⟨s, hs⟩ : ∃ s, (resolveAdw et p env).provided = some s := by
        cases h' : (resolveAdw et p env).provided with
        | none => rw [h'] at hp; simp [truthyS] at hp
        | some s => exact ⟨s, rfl⟩
      have hts : truthyS (some s) = true := by rw [← hs]; exact hp
      refine ⟨s, ?_, ?_, ?_, ?_, Or.inl hs⟩ <;>
        simp [github_webhook, github_webhook_core, htw, hw, hp, hs, hts,
          lookupKey]
    · refine ⟨env.freshId, ?_, ?_, ?_, ?_,
        Or.inr ⟨by simpa using hp, rfl⟩⟩ <;>
        simp [github_webhook, github_webhook_core, htw, hw, hp, lookupKey]
  · exact ⟨by decide, by decide, by decide, by decide⟩

/-- Witness for C7: the general dispatch statement applied to the
concrete `adw_build 75de9bea` request. -/
theorem dispatch_launches_selector_script_witness :
    ∃ aid : String,
      (github_webhook "issue_comment" (.ok examplePayload)
          exampleEnv).launches =
        [⟨"adw_build" ++ ".py",
          [pyStrOfOptNat examplePayload.issueNumber, aid]⟩] ∧
      lookupKey (github_webhook "issue_comment" (.ok examplePayload)
          exampleEnv).response "workflow" = some (.s "adw_build") ∧
      lookupKey (github_webhook "issue_comment" (.ok examplePayload)
          exampleEnv).response "adw_id" = some (.s aid) ∧
      lookupKey (github_webhook "issue_comment" (.ok examplePayload)
          exampleEnv).response "reason" =
        some (.s (resolveAdw "issue_comment" examplePayload
          exampleEnv).trigger_reason) ∧
      ((resolveAdw "issue_comment" examplePayload exampleEnv).provided =
          some aid ∨
        (truthyS (resolveAdw "issue_comment" examplePayload
            exampleEnv).provided = false ∧
          aid = exampleEnv.freshId)) :=
  dispatch_launches_selector_script.1 "issue_comment" examplePayload
    exampleEnv "adw_build" (by decide) (by decide)
